import Mathlib

/-!
Verification of the typed columnar schema registry of
`nautilus_trader/serialization/arrow/schema.py`.

The first part embeds the literal `NAUTILUS_PARQUET_SCHEMA` table: each
pyarrow schema becomes a list of (field name, arrow type) pairs plus the
schema-level metadata that the source attaches (`type` tag and, for
`OrderInitialized`, the `options_fields` list).

The second part models, from the specification, the schema registry and
the record codec (the `register_parquet` / serializer module is not part
of the sources given), and proves the registry override, round-trip and
missing-schema properties about that model.
-/


/-- Physical arrow column types used by the schema table
(`pa.uint8()`, `pa.dictionary(pa.int16(), pa.string())`, ...). -/
inductive ArrowType where
  | uint8 : ArrowType
  | uint64 : ArrowType
  | int8 : ArrowType
  | int16 : ArrowType
  | int64 : ArrowType
  | float64 : ArrowType
  | bool_ : ArrowType
  | string : ArrowType
  | binary : ArrowType
  | dictionary : ArrowType → ArrowType → ArrowType
deriving DecidableEq, Repr

/-- Schema-level metadata attached by the source: an optional `type` tag
and, for `OrderInitialized` only, the `options_fields` name list. -/
structure SchemaMetadata where
  typeTag : Option String := none
  optionsFields : Option (List String) := none
deriving DecidableEq, Repr

/-- One pyarrow schema from the table: its ordered fields and metadata. -/
structure ArrowSchema where
  fields : List (String × ArrowType)
  metadata : SchemaMetadata := {}
deriving DecidableEq, Repr

/-- The record kinds (dictionary keys) of `NAUTILUS_PARQUET_SCHEMA`. -/
inductive NautilusClass where
  | OrderBookDelta | Ticker | QuoteTick | TradeTick | Bar
  | VenueStatusUpdate | InstrumentClose | InstrumentStatusUpdate
  | ComponentStateChanged | TradingStateChanged | AccountState
  | OrderInitialized | OrderDenied | OrderSubmitted | OrderAccepted
  | OrderRejected | OrderPendingCancel | OrderCanceled
  | OrderCancelRejected | OrderExpired | OrderTriggered
  | OrderPendingUpdate | OrderModifyRejected | OrderUpdated | OrderFilled
  | PositionOpened | PositionChanged | PositionClosed
  | BettingInstrument | CurrencyPair | CryptoPerpetual | CryptoFuture
  | Equity | FuturesContract | OptionsContract | BinanceBar
deriving DecidableEq, Repr, Fintype

/-- The name of each record kind, as the registry would key it. -/
def className : NautilusClass → String
  | .OrderBookDelta => "OrderBookDelta"
  | .Ticker => "Ticker"
  | .QuoteTick => "QuoteTick"
  | .TradeTick => "TradeTick"
  | .Bar => "Bar"
  | .VenueStatusUpdate => "VenueStatusUpdate"
  | .InstrumentClose => "InstrumentClose"
  | .InstrumentStatusUpdate => "InstrumentStatusUpdate"
  | .ComponentStateChanged => "ComponentStateChanged"
  | .TradingStateChanged => "TradingStateChanged"
  | .AccountState => "AccountState"
  | .OrderInitialized => "OrderInitialized"
  | .OrderDenied => "OrderDenied"
  | .OrderSubmitted => "OrderSubmitted"
  | .OrderAccepted => "OrderAccepted"
  | .OrderRejected => "OrderRejected"
  | .OrderPendingCancel => "OrderPendingCancel"
  | .OrderCanceled => "OrderCanceled"
  | .OrderCancelRejected => "OrderCancelRejected"
  | .OrderExpired => "OrderExpired"
  | .OrderTriggered => "OrderTriggered"
  | .OrderPendingUpdate => "OrderPendingUpdate"
  | .OrderModifyRejected => "OrderModifyRejected"
  | .OrderUpdated => "OrderUpdated"
  | .OrderFilled => "OrderFilled"
  | .PositionOpened => "PositionOpened"
  | .PositionChanged => "PositionChanged"
  | .PositionClosed => "PositionClosed"
  | .BettingInstrument => "BettingInstrument"
  | .CurrencyPair => "CurrencyPair"
  | .CryptoPerpetual => "CryptoPerpetual"
  | .CryptoFuture => "CryptoFuture"
  | .Equity => "Equity"
  | .FuturesContract => "FuturesContract"
  | .OptionsContract => "OptionsContract"
  | .BinanceBar => "BinanceBar"

/-- The `NAUTILUS_PARQUET_SCHEMA` table of `schema.py`, transcribed field
by field in source order. -/
def NAUTILUS_PARQUET_SCHEMA : NautilusClass → ArrowSchema
  | .OrderBookDelta =>
    { fields :=
        [ ("action", .uint8),
          ("side", .uint8),
          ("price", .int64),
          ("size", .uint64),
          ("order_id", .uint64),
          ("flags", .uint8),
          ("ts_event", .uint64),
          ("ts_init", .uint64) ],
      metadata := { typeTag := some "OrderBookDelta" } }
  | .Ticker =>
    { fields :=
        [ ("instrument_id", .dictionary .int64 .string),
          ("ts_event", .uint64),
          ("ts_init", .uint64) ],
      metadata := { typeTag := some "Ticker" } }
  | .QuoteTick =>
    { fields :=
        [ ("instrument_id", .dictionary .int64 .string),
          ("bid", .string),
          ("bid_size", .string),
          ("ask", .string),
          ("ask_size", .string),
          ("ts_event", .uint64),
          ("ts_init", .uint64) ],
      metadata := { typeTag := some "QuoteTick" } }
  | .TradeTick =>
    { fields :=
        [ ("instrument_id", .dictionary .int64 .string),
          ("price", .string),
          ("size", .string),
          ("aggressor_side", .dictionary .int8 .string),
          ("trade_id", .string),
          ("ts_event", .uint64),
          ("ts_init", .uint64) ],
      metadata := { typeTag := some "TradeTick" } }
  | .Bar =>
    { fields :=
        [ ("bar_type", .dictionary .int16 .string),
          ("instrument_id", .dictionary .int64 .string),
          ("open", .string),
          ("high", .string),
          ("low", .string),
          ("close", .string),
          ("volume", .string),
          ("ts_event", .uint64),
          ("ts_init", .uint64) ] }
  | .VenueStatusUpdate =>
    { fields :=
        [ ("venue", .dictionary .int16 .string),
          ("status", .dictionary .int8 .string),
          ("ts_event", .uint64),
          ("ts_init", .uint64) ],
      metadata := { typeTag := some "InstrumentStatusUpdate" } }
  | .InstrumentClose =>
    { fields :=
        [ ("instrument_id", .dictionary .int64 .string),
          ("close_type", .dictionary .int8 .string),
          ("close_price", .string),
          ("ts_event", .uint64),
          ("ts_init", .uint64) ],
      metadata := { typeTag := some "InstrumentClose" } }
  | .InstrumentStatusUpdate =>
    { fields :=
        [ ("instrument_id", .dictionary .int64 .string),
          ("status", .dictionary .int8 .string),
          ("ts_event", .uint64),
          ("ts_init", .uint64) ],
      metadata := { typeTag := some "InstrumentStatusUpdate" } }
  | .ComponentStateChanged =>
    { fields :=
        [ ("trader_id", .dictionary .int16 .string),
          ("component_id", .dictionary .int16 .string),
          ("component_type", .dictionary .int8 .string),
          ("state", .string),
          ("config", .string),
          ("event_id", .string),
          ("ts_event", .uint64),
          ("ts_init", .uint64) ],
      metadata := { typeTag := some "ComponentStateChanged" } }
  | .TradingStateChanged =>
    { fields :=
        [ ("trader_id", .dictionary .int16 .string),
          ("state", .string),
          ("config", .binary),
          ("event_id", .string),
          ("ts_event", .uint64),
          ("ts_init", .uint64) ],
      metadata := { typeTag := some "TradingStateChanged" } }
  | .AccountState =>
    { fields :=
        [ ("account_id", .dictionary .int16 .string),
          ("account_type", .dictionary .int8 .string),
          ("base_currency", .dictionary .int16 .string),
          ("balance_total", .float64),
          ("balance_locked", .float64),
          ("balance_free", .float64),
          ("balance_currency", .dictionary .int16 .string),
          ("margin_initial", .float64),
          ("margin_maintenance", .float64),
          ("margin_currency", .dictionary .int16 .string),
          ("margin_instrument_id", .dictionary .int64 .string),
          ("reported", .bool_),
          ("info", .binary),
          ("event_id", .string),
          ("ts_event", .uint64),
          ("ts_init", .uint64) ],
      metadata := { typeTag := some "AccountState" } }
  | .OrderInitialized =>
    { fields :=
        [ ("trader_id", .dictionary .int16 .string),
          ("strategy_id", .dictionary .int16 .string),
          ("instrument_id", .dictionary .int64 .string),
          ("client_order_id", .string),
          ("order_side", .dictionary .int8 .string),
          ("order_type", .dictionary .int8 .string),
          ("quantity", .float64),
          ("time_in_force", .dictionary .int8 .string),
          ("post_only", .bool_),
          ("reduce_only", .bool_),
          ("price", .float64),
          ("trigger_price", .string),
          ("trigger_type", .dictionary .int8 .string),
          ("limit_offset", .string),
          ("trailing_offset", .string),
          ("trailing_offset_type", .dictionary .int8 .string),
          ("expire_time_ns", .uint64),
          ("display_qty", .string),
          ("emulation_trigger", .string),
          ("contingency_type", .string),
          ("order_list_id", .string),
          ("linked_order_ids", .string),
          ("parent_order_id", .string),
          ("exec_algorithm_id", .string),
          ("exec_algorithm_params", .binary),
          ("exec_spawn_id", .binary),
          ("tags", .string),
          ("event_id", .string),
          ("ts_init", .uint64),
          ("reconciliation", .bool_) ],
      metadata :=
        { optionsFields :=
            some
              [ "price", "trigger_price", "trigger_type", "limit_offset",
                "trailing_offset", "trailing_offset_type", "display_qty",
                "expire_time_ns" ] } }
  | .OrderDenied =>
    { fields :=
        [ ("trader_id", .dictionary .int16 .string),
          ("strategy_id", .dictionary .int16 .string),
          ("instrument_id", .dictionary .int64 .string),
          ("client_order_id", .string),
          ("reason", .dictionary .int16 .string),
          ("event_id", .string),
          ("ts_init", .uint64) ] }
  | .OrderSubmitted =>
    { fields :=
        [ ("trader_id", .dictionary .int16 .string),
          ("strategy_id", .dictionary .int16 .string),
          ("account_id", .dictionary .int16 .string),
          ("instrument_id", .dictionary .int64 .string),
          ("client_order_id", .string),
          ("event_id", .string),
          ("ts_event", .uint64),
          ("ts_init", .uint64) ] }
  | .OrderAccepted =>
    { fields :=
        [ ("trader_id", .dictionary .int16 .string),
          ("strategy_id", .dictionary .int16 .string),
          ("account_id", .dictionary .int16 .string),
          ("instrument_id", .dictionary .int64 .string),
          ("client_order_id", .string),
          ("venue_order_id", .string),
          ("event_id", .string),
          ("ts_event", .uint64),
          ("ts_init", .uint64),
          ("reconciliation", .bool_) ] }
  | .OrderRejected =>
    { fields :=
        [ ("trader_id", .dictionary .int16 .string),
          ("strategy_id", .dictionary .int16 .string),
          ("account_id", .dictionary .int16 .string),
          ("instrument_id", .dictionary .int64 .string),
          ("client_order_id", .string),
          ("reason", .dictionary .int16 .string),
          ("event_id", .string),
          ("ts_event", .uint64),
          ("ts_init", .uint64),
          ("reconciliation", .bool_) ] }
  | .OrderPendingCancel =>
    { fields :=
        [ ("trader_id", .dictionary .int16 .string),
          ("strategy_id", .dictionary .int16 .string),
          ("account_id", .dictionary .int16 .string),
          ("instrument_id", .dictionary .int64 .string),
          ("client_order_id", .string),
          ("venue_order_id", .string),
          ("event_id", .string),
          ("ts_event", .uint64),
          ("ts_init", .uint64),
          ("reconciliation", .bool_) ] }
  | .OrderCanceled =>
    { fields :=
        [ ("trader_id", .dictionary .int16 .string),
          ("strategy_id", .dictionary .int16 .string),
          ("account_id", .dictionary .int16 .string),
          ("instrument_id", .dictionary .int64 .string),
          ("client_order_id", .string),
          ("venue_order_id", .string),
          ("event_id", .string),
          ("ts_event", .uint64),
          ("ts_init", .uint64),
          ("reconciliation", .bool_) ] }
  | .OrderCancelRejected =>
    { fields :=
        [ ("trader_id", .dictionary .int16 .string),
          ("strategy_id", .dictionary .int16 .string),
          ("account_id", .dictionary .int16 .string),
          ("instrument_id", .dictionary .int64 .string),
          ("client_order_id", .string),
          ("venue_order_id", .string),
          ("reason", .string),
          ("event_id", .string),
          ("ts_event", .uint64),
          ("ts_init", .uint64),
          ("reconciliation", .bool_) ] }
  | .OrderExpired =>
    { fields :=
        [ ("trader_id", .dictionary .int16 .string),
          ("strategy_id", .dictionary .int16 .string),
          ("account_id", .dictionary .int16 .string),
          ("instrument_id", .dictionary .int64 .string),
          ("client_order_id", .string),
          ("venue_order_id", .string),
          ("event_id", .string),
          ("ts_event", .uint64),
          ("ts_init", .uint64),
          ("reconciliation", .bool_) ] }
  | .OrderTriggered =>
    { fields :=
        [ ("trader_id", .dictionary .int16 .string),
          ("strategy_id", .dictionary .int16 .string),
          ("account_id", .dictionary .int16 .string),
          ("instrument_id", .dictionary .int64 .string),
          ("client_order_id", .string),
          ("venue_order_id", .string),
          ("event_id", .string),
          ("ts_event", .uint64),
          ("ts_init", .uint64),
          ("reconciliation", .bool_) ] }
  | .OrderPendingUpdate =>
    { fields :=
        [ ("trader_id", .dictionary .int16 .string),
          ("strategy_id", .dictionary .int16 .string),
          ("account_id", .dictionary .int16 .string),
          ("instrument_id", .dictionary .int64 .string),
          ("client_order_id", .string),
          ("venue_order_id", .string),
          ("event_id", .string),
          ("ts_event", .uint64),
          ("ts_init", .uint64),
          ("reconciliation", .bool_) ] }
  | .OrderModifyRejected =>
    { fields :=
        [ ("trader_id", .dictionary .int16 .string),
          ("strategy_id", .dictionary .int16 .string),
          ("account_id", .dictionary .int16 .string),
          ("instrument_id", .dictionary .int64 .string),
          ("client_order_id", .string),
          ("venue_order_id", .string),
          ("reason", .dictionary .int16 .string),
          ("event_id", .string),
          ("ts_event", .uint64),
          ("ts_init", .uint64),
          ("reconciliation", .bool_) ] }
  | .OrderUpdated =>
    { fields :=
        [ ("trader_id", .dictionary .int16 .string),
          ("strategy_id", .dictionary .int16 .string),
          ("account_id", .dictionary .int16 .string),
          ("instrument_id", .dictionary .int64 .string),
          ("client_order_id", .string),
          ("venue_order_id", .string),
          ("price", .float64),
          ("quantity", .float64),
          ("trigger_price", .float64),
          ("event_id", .string),
          ("ts_event", .uint64),
          ("ts_init", .uint64),
          ("reconciliation", .bool_) ] }
  | .OrderFilled =>
    { fields :=
        [ ("trader_id", .dictionary .int16 .string),
          ("strategy_id", .dictionary .int16 .string),
          ("account_id", .dictionary .int16 .string),
          ("instrument_id", .dictionary .int64 .string),
          ("client_order_id", .string),
          ("venue_order_id", .string),
          ("trade_id", .string),
          ("position_id", .string),
          ("order_side", .dictionary .int8 .string),
          ("order_type", .dictionary .int8 .string),
          ("last_qty", .float64),
          ("last_px", .float64),
          ("currency", .string),
          ("commission", .string),
          ("liquidity_side", .string),
          ("event_id", .string),
          ("ts_event", .uint64),
          ("ts_init", .uint64),
          ("info", .binary),
          ("reconciliation", .bool_) ] }
  | .PositionOpened =>
    { fields :=
        [ ("trader_id", .dictionary .int16 .string),
          ("strategy_id", .dictionary .int16 .string),
          ("instrument_id", .dictionary .int64 .string),
          ("account_id", .dictionary .int16 .string),
          ("position_id", .string),
          ("opening_order_id", .string),
          ("entry", .string),
          ("side", .string),
          ("signed_qty", .float64),
          ("quantity", .float64),
          ("peak_qty", .float64),
          ("last_qty", .float64),
          ("last_px", .float64),
          ("currency", .string),
          ("avg_px_open", .float64),
          ("realized_pnl", .float64),
          ("event_id", .string),
          ("duration_ns", .uint64),
          ("ts_event", .uint64),
          ("ts_init", .uint64) ] }
  | .PositionChanged =>
    { fields :=
        [ ("trader_id", .dictionary .int16 .string),
          ("strategy_id", .dictionary .int16 .string),
          ("instrument_id", .dictionary .int64 .string),
          ("account_id", .dictionary .int16 .string),
          ("position_id", .string),
          ("opening_order_id", .string),
          ("entry", .string),
          ("side", .string),
          ("signed_qty", .float64),
          ("quantity", .float64),
          ("peak_qty", .float64),
          ("last_qty", .float64),
          ("last_px", .float64),
          ("currency", .string),
          ("avg_px_open", .float64),
          ("avg_px_close", .float64),
          ("realized_return", .float64),
          ("realized_pnl", .float64),
          ("unrealized_pnl", .float64),
          ("event_id", .string),
          ("ts_opened", .uint64),
          ("ts_event", .uint64),
          ("ts_init", .uint64) ] }
  | .PositionClosed =>
    { fields :=
        [ ("trader_id", .dictionary .int16 .string),
          ("account_id", .dictionary .int16 .string),
          ("strategy_id", .dictionary .int16 .string),
          ("instrument_id", .dictionary .int64 .string),
          ("position_id", .string),
          ("opening_order_id", .string),
          ("closing_order_id", .string),
          ("entry", .string),
          ("side", .string),
          ("signed_qty", .float64),
          ("quantity", .float64),
          ("peak_qty", .float64),
          ("last_qty", .float64),
          ("last_px", .float64),
          ("currency", .string),
          ("avg_px_open", .float64),
          ("avg_px_close", .float64),
          ("realized_return", .float64),
          ("realized_pnl", .float64),
          ("event_id", .string),
          ("ts_opened", .uint64),
          ("ts_closed", .uint64),
          ("duration_ns", .uint64),
          ("ts_init", .uint64) ] }
  | .BettingInstrument =>
    { fields :=
        [ ("venue_name", .string),
          ("currency", .string),
          ("id", .string),
          ("event_type_id", .string),
          ("event_type_name", .string),
          ("competition_id", .string),
          ("competition_name", .string),
          ("event_id", .string),
          ("event_name", .string),
          ("event_country_code", .string),
          ("event_open_date", .string),
          ("betting_type", .string),
          ("market_id", .string),
          ("market_name", .string),
          ("market_start_time", .string),
          ("market_type", .string),
          ("selection_id", .string),
          ("selection_name", .string),
          ("selection_handicap", .string),
          ("ts_event", .uint64),
          ("ts_init", .uint64) ],
      metadata := { typeTag := some "BettingInstrument" } }
  | .CurrencyPair =>
    { fields :=
        [ ("id", .dictionary .int64 .string),
          ("raw_symbol", .string),
          ("base_currency", .dictionary .int16 .string),
          ("quote_currency", .dictionary .int16 .string),
          ("price_precision", .uint8),
          ("size_precision", .uint8),
          ("price_increment", .dictionary .int16 .string),
          ("size_increment", .dictionary .int16 .string),
          ("lot_size", .dictionary .int16 .string),
          ("max_quantity", .dictionary .int16 .string),
          ("min_quantity", .dictionary .int16 .string),
          ("max_notional", .dictionary .int16 .string),
          ("min_notional", .dictionary .int16 .string),
          ("max_price", .dictionary .int16 .string),
          ("min_price", .dictionary .int16 .string),
          ("margin_init", .string),
          ("margin_maint", .string),
          ("maker_fee", .string),
          ("taker_fee", .string),
          ("info", .binary),
          ("ts_event", .uint64),
          ("ts_init", .uint64) ] }
  | .CryptoPerpetual =>
    { fields :=
        [ ("id", .dictionary .int64 .string),
          ("raw_symbol", .string),
          ("base_currency", .dictionary .int16 .string),
          ("quote_currency", .dictionary .int16 .string),
          ("settlement_currency", .dictionary .int16 .string),
          ("is_inverse", .bool_),
          ("price_precision", .uint8),
          ("size_precision", .uint8),
          ("price_increment", .dictionary .int16 .string),
          ("size_increment", .dictionary .int16 .string),
          ("max_quantity", .dictionary .int16 .string),
          ("min_quantity", .dictionary .int16 .string),
          ("max_notional", .dictionary .int16 .string),
          ("min_notional", .dictionary .int16 .string),
          ("max_price", .dictionary .int16 .string),
          ("min_price", .dictionary .int16 .string),
          ("margin_init", .string),
          ("margin_maint", .string),
          ("maker_fee", .string),
          ("taker_fee", .string),
          ("info", .binary),
          ("ts_event", .uint64),
          ("ts_init", .uint64) ] }
  | .CryptoFuture =>
    { fields :=
        [ ("id", .dictionary .int64 .string),
          ("raw_symbol", .string),
          ("underlying", .dictionary .int16 .string),
          ("quote_currency", .dictionary .int16 .string),
          ("settlement_currency", .dictionary .int16 .string),
          ("expiry_date", .dictionary .int16 .string),
          ("price_precision", .uint8),
          ("size_precision", .uint8),
          ("price_increment", .dictionary .int16 .string),
          ("size_increment", .dictionary .int16 .string),
          ("max_quantity", .dictionary .int16 .string),
          ("min_quantity", .dictionary .int16 .string),
          ("max_notional", .dictionary .int16 .string),
          ("min_notional", .dictionary .int16 .string),
          ("max_price", .dictionary .int16 .string),
          ("min_price", .dictionary .int16 .string),
          ("margin_init", .string),
          ("margin_maint", .string),
          ("maker_fee", .string),
          ("taker_fee", .string),
          ("info", .binary),
          ("ts_event", .uint64),
          ("ts_init", .uint64) ] }
  | .Equity =>
    { fields :=
        [ ("id", .dictionary .int64 .string),
          ("raw_symbol", .string),
          ("currency", .dictionary .int16 .string),
          ("price_precision", .uint8),
          ("size_precision", .uint8),
          ("price_increment", .dictionary .int16 .string),
          ("size_increment", .dictionary .int16 .string),
          ("multiplier", .dictionary .int16 .string),
          ("lot_size", .dictionary .int16 .string),
          ("isin", .string),
          ("margin_init", .string),
          ("margin_maint", .string),
          ("maker_fee", .string),
          ("taker_fee", .string),
          ("ts_event", .uint64),
          ("ts_init", .uint64) ] }
  | .FuturesContract =>
    { fields :=
        [ ("id", .dictionary .int64 .string),
          ("raw_symbol", .string),
          ("underlying", .dictionary .int16 .string),
          ("asset_class", .dictionary .int8 .string),
          ("currency", .dictionary .int16 .string),
          ("price_precision", .uint8),
          ("size_precision", .uint8),
          ("price_increment", .dictionary .int16 .string),
          ("size_increment", .dictionary .int16 .string),
          ("multiplier", .dictionary .int16 .string),
          ("lot_size", .dictionary .int16 .string),
          ("expiry_date", .dictionary .int16 .string),
          ("ts_event", .uint64),
          ("ts_init", .uint64) ] }
  | .OptionsContract =>
    { fields :=
        [ ("id", .dictionary .int64 .string),
          ("raw_symbol", .string),
          ("underlying", .dictionary .int16 .string),
          ("asset_class", .dictionary .int8 .string),
          ("currency", .dictionary .int16 .string),
          ("price_precision", .uint8),
          ("size_precision", .uint8),
          ("price_increment", .dictionary .int16 .string),
          ("size_increment", .dictionary .int16 .string),
          ("multiplier", .dictionary .int16 .string),
          ("lot_size", .dictionary .int16 .string),
          ("expiry_date", .dictionary .int64 .string),
          ("strike_price", .dictionary .int64 .string),
          ("kind", .dictionary .int8 .string),
          ("ts_event", .uint64),
          ("ts_init", .uint64) ] }
  | .BinanceBar =>
    { fields :=
        [ ("bar_type", .dictionary .int16 .string),
          ("instrument_id", .dictionary .int64 .string),
          ("open", .string),
          ("high", .string),
          ("low", .string),
          ("close", .string),
          ("volume", .string),
          ("quote_volume", .string),
          ("count", .uint64),
          ("taker_buy_base_volume", .string),
          ("taker_buy_quote_volume", .string),
          ("ts_event", .uint64),
          ("ts_init", .uint64) ] }

/-- The column type registered for field `n` of record kind `c`. -/
def lookupField (c : NautilusClass) (n : String) : Option ArrowType :=
  List.lookup n (NAUTILUS_PARQUET_SCHEMA c).fields

/-- Whether an arrow type is a dictionary-coded column. -/
def isDictionary : ArrowType → Bool
  | .dictionary _ _ => true
  | _ => false

/-- The ordinal-width policy for the identifier and side columns, as the
table applies it; the only `liquidity_side` column is a plain string. -/
def ordinalPolicyOk (p : String × ArrowType) : Bool :=
  (p.1 != "order_side" || decide (p.2 = .dictionary .int8 .string)) &&
  (p.1 != "trader_id" || decide (p.2 = .dictionary .int16 .string)) &&
  (p.1 != "strategy_id" || decide (p.2 = .dictionary .int16 .string)) &&
  (p.1 != "account_id" || decide (p.2 = .dictionary .int16 .string)) &&
  (p.1 != "instrument_id" || decide (p.2 = .dictionary .int64 .string)) &&
  (p.1 != "liquidity_side" || decide (p.2 = ArrowType.string))

/-- Every dictionary column must be string-valued with a signed 8-, 16-
or 64-bit index; non-dictionary columns are unconstrained. -/
def dictWellFormed : ArrowType → Bool
  | .dictionary i v =>
      decide (v = .string) &&
        (decide (i = .int8) || decide (i = .int16) || decide (i = .int64))
  | _ => true

/-! ## Decimal strings

The spec's Field Encoding Policy stores arbitrary-precision decimals as
UTF-8 decimal strings and parses them back into the exact-precision
numeric type. A decimal is an unscaled natural together with a scale
(number of fraction digits). -/

/-- An exact-precision decimal value: `unscaled` scaled down by
`10 ^ scale` fraction digits. -/
structure Decimal where
  unscaled : Nat
  scale : Nat
deriving DecidableEq, Repr

/-- The character of a single digit. -/
def digitChar (d : Nat) : Char := Char.ofNat (48 + d)

/-- The digit of a single character. -/
def charDigit (c : Char) : Nat := c.toNat - 48

/-- Whether a character is a decimal digit. -/
def isDigitCh (c : Char) : Bool := decide (48 ≤ c.toNat) && decide (c.toNat ≤ 57)

/-- Whether a character is not the decimal point. -/
def notDot (c : Char) : Bool := decide (c ≠ '.')

/-- The usual decimal rendering of a natural number. -/
def natChars (n : Nat) : List Char :=
  if n = 0 then [digitChar 0] else ((Nat.digits 10 n).map digitChar).reverse

/-- Parse a digit string back into a natural number. -/
def parseNatChars (cs : List Char) : Nat :=
  Nat.ofDigits 10 ((cs.map charDigit).reverse)

/-- Little-endian digits padded with zeros up to `k` digits. -/
def padZeros (l : List Nat) (k : Nat) : List Nat :=
  l ++ List.replicate (k - l.length) 0

/-- The `k` fraction digits of `fp`, most significant first. -/
def fracChars (fp k : Nat) : List Char :=
  ((padZeros (Nat.digits 10 fp) k).map digitChar).reverse

/-- Render a decimal value as its decimal string: integer part, then a
point and exactly `scale` fraction digits when the scale is nonzero. -/
def decimalChars (d : Decimal) : List Char :=
  if d.scale = 0 then natChars d.unscaled
  else
    natChars (d.unscaled / 10 ^ d.scale) ++
      '.' :: fracChars (d.unscaled % 10 ^ d.scale) d.scale

/-- Parse a decimal string back into the exact-precision decimal type;
`none` on a malformed string. The integer part is everything before the
decimal point, the fraction part everything after it. -/
def parseDecimalChars (cs : List Char) : Option Decimal :=
  if cs.takeWhile notDot = [] ∨ ¬ (cs.takeWhile notDot).all isDigitCh = true then
    none
  else if cs.dropWhile notDot = [] then
    some ⟨parseNatChars (cs.takeWhile notDot), 0⟩
  else if (cs.dropWhile notDot).tail = [] ∨
      ¬ ((cs.dropWhile notDot).tail).all isDigitCh = true then
    none
  else
    some ⟨parseNatChars (cs.takeWhile notDot) *
        10 ^ ((cs.dropWhile notDot).tail).length +
        parseNatChars ((cs.dropWhile notDot).tail),
      ((cs.dropWhile notDot).tail).length⟩

/-! ## Schema registry and record codec

The registration and codec machinery (`register_parquet` and the
serializer module) is imported by `schema.py` but is not among the given
sources, so it is modelled from the specification (§3, §4.1-§4.4). -/

/-- Modelled from the spec: the declared ordinal-width enum for
dictionary-coded categorical fields (§4.1, §9); the serializer module
that consumes it is not among the sources. -/
inductive DictWidth where
  | narrow | medium | wide
deriving DecidableEq, Repr

/-- Modelled from the spec: the semantic value kinds of the Field
Encoding Policy (§4.1) — arbitrary-precision decimal, instant in time,
dictionary-coded categorical, opaque payload, boolean flag. -/
inductive FieldKind where
  | decimalKind | instantKind
  | categoricalKind (w : DictWidth)
  | payloadKind | boolKind
deriving DecidableEq, Repr

/-- Modelled from the spec: the physical column type the Field Encoding
Policy assigns to each semantic kind (§4.1). -/
def physicalOf : FieldKind → ArrowType
  | .decimalKind => .string
  | .instantKind => .uint64
  | .categoricalKind .narrow => .dictionary .int8 .string
  | .categoricalKind .medium => .dictionary .int16 .string
  | .categoricalKind .wide => .dictionary .int64 .string
  | .payloadKind => .binary
  | .boolKind => .bool_

/-- Modelled from the spec: a domain record's field value, one per
semantic kind of the policy. -/
inductive DomainValue where
  | decimalVal (d : Decimal)
  | instantVal (ns : Nat)
  | categoricalVal (s : List Char)
  | payloadVal (bs : List Nat)
  | boolVal (b : Bool)
deriving DecidableEq, Repr

/-- Modelled from the spec: one encoded column value of an EncodedRow;
`nullCell` is the null placeholder. -/
inductive Cell where
  | nullCell
  | stringCell (cs : List Char)
  | u64Cell (n : Nat)
  | bytesCell (bs : List Nat)
  | boolCell (b : Bool)
deriving DecidableEq, Repr

/-- Modelled from the spec: the error taxonomy of §7. -/
inductive CodecError where
  | SchemaValidationError (field : String)
  | SchemaNotRegistered
  | UnsupportedFieldKind (field : String)
  | RowSchemaMismatch
  | UnexpectedNull (field : String)
  | DecodeError (field : String)
deriving DecidableEq, Repr

/-- Modelled from the spec: whether a value fits a field's semantic kind
(instants must fit an unsigned 64-bit count of nanoseconds). -/
def wellTyped : FieldKind → DomainValue → Bool
  | .decimalKind, .decimalVal _ => true
  | .instantKind, .instantVal ns => decide (ns < 2 ^ 64)
  | .categoricalKind _, .categoricalVal _ => true
  | .payloadKind, .payloadVal _ => true
  | .boolKind, .boolVal _ => true
  | _, _ => false

/-- Modelled from the spec: the Field Encoding Policy transform (§4.1) —
decimals become UTF-8 decimal strings, instants unsigned 64-bit counts,
categoricals their string token (dictionary ordinals are the storage
layer's concern), payloads byte sequences and booleans boolean cells;
`none` when the value does not fit the field's kind. -/
def encodeCell : FieldKind → DomainValue → Option Cell
  | .decimalKind, .decimalVal d => some (.stringCell (decimalChars d))
  | .instantKind, .instantVal ns => some (.u64Cell ns)
  | .categoricalKind _, .categoricalVal s => some (.stringCell s)
  | .payloadKind, .payloadVal bs => some (.bytesCell bs)
  | .boolKind, .boolVal b => some (.boolCell b)
  | _, _ => none

/-- Modelled from the spec: the inverse Field Encoding Policy transform
(§4.4 decode step 2); decimal strings are parsed back into the
exact-precision decimal type. -/
def decodeCell : FieldKind → Cell → Option DomainValue
  | .decimalKind, .stringCell cs => (parseDecimalChars cs).map .decimalVal
  | .instantKind, .u64Cell ns => some (.instantVal ns)
  | .categoricalKind _, .stringCell s => some (.categoricalVal s)
  | .payloadKind, .bytesCell bs => some (.payloadVal bs)
  | .boolKind, .boolCell b => some (.boolVal b)
  | _, _ => none

/-- Modelled from the spec: one column definition of a SchemaSpec (§3);
the physical type is determined by the kind through the policy. -/
structure FieldDescriptor where
  name : String
  kind : FieldKind
  nullable : Bool
deriving DecidableEq, Repr

/-- Modelled from the spec: one domain record kind's layout (§3) — type
tag, ordered field list and variant field names. -/
structure SchemaSpec where
  typeTag : String
  fields : List FieldDescriptor
  variantFields : List String
deriving DecidableEq, Repr

/-- Modelled from the spec: construction-time validation of a SchemaSpec
(§4.2) — no duplicate field names, and every variant field name present
in the field list. -/
def validSchemaSpec (s : SchemaSpec) : Bool :=
  decide (s.fields.map FieldDescriptor.name).Nodup &&
    s.variantFields.all fun v => s.fields.any fun fd => fd.name == v

/-- Modelled from the spec: a concrete domain record instance — its
runtime kind's tag and its named field values, where `none` marks a
variant field the runtime discriminant leaves unpopulated. -/
structure DomainRecord where
  typeTag : String
  values : List (String × Option DomainValue)
deriving DecidableEq, Repr

/-- Modelled from the spec: whether one record entry is valid for its
field descriptor — an unpopulated value only at a nullable variant
field, a populated value fitting the field's kind (§3, §8 null
discipline). -/
def entryOk (variant : List String) (fd : FieldDescriptor)
    (ov : Option DomainValue) : Bool :=
  match ov with
  | none => fd.nullable && variant.contains fd.name
  | some v => wellTyped fd.kind v

/-- Modelled from the spec: a validly-constructed record of a schema's
kind — same tag, fields named exactly as the schema in schema order,
and every entry valid for its descriptor (§3 invariants, §4.4). -/
def validRecord (s : SchemaSpec) (r : DomainRecord) : Bool :=
  r.typeTag == s.typeTag &&
  r.values.map Prod.fst == s.fields.map FieldDescriptor.name &&
  (s.fields.zip r.values).all fun p => entryOk s.variantFields p.1 p.2.2

/-- Effectful map over a list, stopping at the first error. -/
def mapE (f : α → Except CodecError β) : List α → Except CodecError (List β)
  | [] => .ok []
  | x :: xs =>
      match f x with
      | .error e => .error e
      | .ok y =>
          match mapE f xs with
          | .error e => .error e
          | .ok ys => .ok (y :: ys)

/-- Modelled from the spec: encode one extracted value (§4.4 encode
step 2) — emit null for an unpopulated variant field (which must be
nullable; otherwise a schema/programmer error), otherwise apply the
policy transform for the field's kind. -/
def encodeEntry (variant : List String) (fd : FieldDescriptor)
    (ov : Option DomainValue) : Except CodecError Cell :=
  match ov with
  | none =>
      if fd.nullable && variant.contains fd.name then .ok .nullCell
      else .error (.SchemaValidationError fd.name)
  | some v =>
      match encodeCell fd.kind v with
      | some c => .ok c
      | none => .error (.UnsupportedFieldKind fd.name)

/-- Modelled from the spec: encode one field (§4.4 encode step 2) —
extract the record's value for the field by name, then encode it. -/
def encodeField (r : DomainRecord) (variant : List String) (fd : FieldDescriptor) :
    Except CodecError Cell :=
  match List.lookup fd.name r.values with
  | none => .error (.SchemaValidationError fd.name)
  | some ov => encodeEntry variant fd ov

/-- Modelled from the spec: encode a record against a schema (§4.4),
producing one cell per field descriptor in schema order. -/
def encodeRecord (s : SchemaSpec) (r : DomainRecord) :
    Except CodecError (List Cell) :=
  mapE (encodeField r s.variantFields) s.fields

/-- Modelled from the spec: decode one cell at a field position (§4.4
decode step 2) — null only where the descriptor is nullable, otherwise
the inverse policy transform. -/
def decodeField (fd : FieldDescriptor) (c : Cell) :
    Except CodecError (String × Option DomainValue) :=
  match c with
  | .nullCell =>
      if fd.nullable then .ok (fd.name, none)
      else .error (.UnexpectedNull fd.name)
  | c =>
      match decodeCell fd.kind c with
      | some v => .ok (fd.name, some v)
      | none => .error (.DecodeError fd.name)

/-- Modelled from the spec: decode a row against a schema (§4.4) —
length check, per-position inverse transforms, reassembly of the record
of the schema's kind. -/
def decodeRecord (row : List Cell) (s : SchemaSpec) :
    Except CodecError DomainRecord :=
  if row.length = s.fields.length then
    (mapE (fun p => decodeField p.1 p.2) (s.fields.zip row)).map
      fun vals => ⟨s.typeTag, vals⟩
  else .error .RowSchemaMismatch

/-- Modelled from the spec: the process-wide schema registry (§4.3) as
an association list from type tag to SchemaSpec; `register_parquet` of
the serializer module is not among the sources. -/
abbrev Registry := List (String × SchemaSpec)

/-- Modelled from the spec: `register` inserts or replaces the entry for
a tag; the prior entry for the same tag is dropped (last write wins). -/
def registerSchema (reg : Registry) (tag : String) (s : SchemaSpec) : Registry :=
  (tag, s) :: reg.filter fun p => p.1 != tag

/-- Modelled from the spec: `lookup` returns the currently registered
spec for a tag, if any; no fallback schema is synthesized. -/
def lookupSchema (reg : Registry) (tag : String) : Option SchemaSpec :=
  List.lookup tag reg

/-- Modelled from the spec: `lookup` as the codec sees it, failing with
`SchemaNotRegistered` when no entry exists (§4.3, §7). -/
def lookupSchemaE (reg : Registry) (tag : String) :
    Except CodecError SchemaSpec :=
  match lookupSchema reg tag with
  | some s => .ok s
  | none => .error .SchemaNotRegistered

/-- Modelled from the spec: the registry holds at most one spec per tag. -/
def atMostOnePerTag (reg : Registry) : Prop :=
  (reg.map Prod.fst).Nodup

/-- Modelled from the spec: encode via the registry (§4.4 encode step 1)
— resolve the record's tag, fail with `SchemaNotRegistered` when absent,
then encode against the registered schema. -/
def encodeTop (reg : Registry) (r : DomainRecord) :
    Except CodecError (List Cell) :=
  match lookupSchema reg r.typeTag with
  | some s => encodeRecord s r
  | none => .error .SchemaNotRegistered

/-- Encode a record via the registry and decode the resulting row
against the schema — the round-trip composite of §8. -/
def encodeThenDecode (reg : Registry) (s : SchemaSpec) (r : DomainRecord) :
    Except CodecError DomainRecord :=
  (encodeTop reg r).bind fun row => decodeRecord row s

/-- The length of the encoded row a record produces via the registry. -/
def encodedLength (reg : Registry) (r : DomainRecord) : Except CodecError Nat :=
  (encodeTop reg r).map List.length

/-- A concrete schema in the shape of §8's scenario A: a trade-executed
record with string-encoded decimal price and size. -/
def tradeExecutedSpec : SchemaSpec :=
  { typeTag := "TradeExecuted",
    fields :=
      [ { name := "price", kind := .decimalKind, nullable := false },
        { name := "size", kind := .decimalKind, nullable := false },
        { name := "side", kind := .categoricalKind .narrow, nullable := false },
        { name := "event_time", kind := .instantKind, nullable := false },
        { name := "ingest_time", kind := .instantKind, nullable := false } ],
    variantFields := [] }

/-- A concrete record of the trade-executed kind: price 100.25, size 10,
side BUY, timestamps 1 and 2. -/
def tradeExecutedRecord : DomainRecord :=
  { typeTag := "TradeExecuted",
    values :=
      [ ("price", some (.decimalVal ⟨10025, 2⟩)),
        ("size", some (.decimalVal ⟨10, 0⟩)),
        ("side", some (.categoricalVal ['B', 'U', 'Y'])),
        ("event_time", some (.instantVal 1)),
        ("ingest_time", some (.instantVal 2)) ] }

/-- A concrete variant-bearing schema in the shape of §8's scenario B:
`trigger_price` is a nullable variant field. -/
def orderInitializedSpec : SchemaSpec :=
  { typeTag := "OrderInitialized",
    fields :=
      [ { name := "client_order_id", kind := .categoricalKind .medium,
          nullable := false },
        { name := "trigger_price", kind := .decimalKind, nullable := true },
        { name := "ts_init", kind := .instantKind, nullable := false } ],
    variantFields := ["trigger_price"] }

/-! ## Theorems -/

/-- Claim C1: the schema table declares the OrderInitialized `price` and
`quantity` columns as 64-bit floats, while the TradeTick `price` and
`size` columns are UTF-8 strings; the float typing contradicts the
decimal-as-string encoding policy. -/
theorem C1_orderInitialized_price_quantity_are_float64 :
    lookupField NautilusClass.OrderInitialized "price" = some ArrowType.float64 ∧
    lookupField NautilusClass.OrderInitialized "quantity" = some ArrowType.float64 ∧
    lookupField NautilusClass.TradeTick "price" = some ArrowType.string ∧
    lookupField NautilusClass.TradeTick "size" = some ArrowType.string ∧
    ArrowType.float64 ≠ ArrowType.string := by decide

/-- Claim C2, counterexample: the OrderInitialized, OrderDenied and
PositionClosed schemas carry no `ts_event` column at all. -/
theorem C2_counterexample_no_ts_event :
    lookupField NautilusClass.OrderInitialized "ts_event" = none ∧
    lookupField NautilusClass.OrderDenied "ts_event" = none ∧
    lookupField NautilusClass.PositionClosed "ts_event" = none := by decide

/-- Claim C2 (amended): every schema in the table has a `ts_init` column
of unsigned 64-bit integer type, and every schema other than
OrderInitialized, OrderDenied and PositionClosed also has a `ts_event`
column of unsigned 64-bit integer type. -/
theorem C2_timestamp_columns (c : NautilusClass) :
    lookupField c "ts_init" = some ArrowType.uint64 ∧
    (c ≠ NautilusClass.OrderInitialized → c ≠ NautilusClass.OrderDenied →
      c ≠ NautilusClass.PositionClosed →
      lookupField c "ts_event" = some ArrowType.uint64) := by
  cases c <;>
    exact ⟨by decide, fun h1 h2 h3 => by
      first
        | decide
        | exact absurd rfl h1
        | exact absurd rfl h2
        | exact absurd rfl h3⟩

/-- Claim C2, witness: the amended theorem applied to TradeTick. -/
theorem C2_timestamp_columns_witness :
    lookupField NautilusClass.TradeTick "ts_init" = some ArrowType.uint64 ∧
    lookupField NautilusClass.TradeTick "ts_event" = some ArrowType.uint64 :=
  ⟨(C2_timestamp_columns NautilusClass.TradeTick).1,
   (C2_timestamp_columns NautilusClass.TradeTick).2
     (by decide) (by decide) (by decide)⟩

/-- Claim C3: the schema registered for VenueStatusUpdate carries the
metadata type tag "InstrumentStatusUpdate", not the name of the record
kind it is registered under. -/
theorem C3_venueStatusUpdate_mistagged :
    (NAUTILUS_PARQUET_SCHEMA NautilusClass.VenueStatusUpdate).metadata.typeTag
      = some "InstrumentStatusUpdate" ∧
    className NautilusClass.VenueStatusUpdate = "VenueStatusUpdate" ∧
    ("InstrumentStatusUpdate" : String) ≠ "VenueStatusUpdate" := by decide

/-- Claim C4, counterexample: the `liquidity_side` column of OrderFilled
is a plain UTF-8 string, not a dictionary-coded column at all. -/
theorem C4_counterexample_liquidity_side_not_dictionary :
    lookupField NautilusClass.OrderFilled "liquidity_side" = some ArrowType.string ∧
    isDictionary ArrowType.string = false := by decide

/-- Claim C4 (amended): in every schema, each `order_side` column is an
8-bit-indexed dictionary, each `trader_id`, `strategy_id` and
`account_id` column a 16-bit-indexed dictionary, each `instrument_id`
column a 64-bit-indexed dictionary, while the only `liquidity_side`
column (in OrderFilled) is a plain string. -/
theorem C4_ordinal_width_policy :
    ∀ c : NautilusClass,
      ((NAUTILUS_PARQUET_SCHEMA c).fields.all ordinalPolicyOk) = true := by decide

/-- Claim C5: every name in the `options_fields` metadata of the
OrderInitialized schema names a field of that schema. -/
theorem C5_options_fields_subset :
    (NAUTILUS_PARQUET_SCHEMA NautilusClass.OrderInitialized).metadata.optionsFields =
      some ["price", "trigger_price", "trigger_type", "limit_offset",
            "trailing_offset", "trailing_offset_type", "display_qty",
            "expire_time_ns"] ∧
    (["price", "trigger_price", "trigger_type", "limit_offset",
      "trailing_offset", "trailing_offset_type", "display_qty",
      "expire_time_ns"].all fun n =>
        (NAUTILUS_PARQUET_SCHEMA NautilusClass.OrderInitialized).fields.any
          fun p => p.1 == n) = true := by decide

/-- Claim C9: every dictionary-coded column anywhere in the table has
UTF-8 string values and a signed 8-, 16- or 64-bit index type. -/
theorem C9_dictionary_columns :
    ∀ c : NautilusClass,
      ((NAUTILUS_PARQUET_SCHEMA c).fields.all fun p => dictWellFormed p.2) = true := by
  decide

/-- Claim C10: OrderInitialized is the only record kind whose schema
carries `options_fields` metadata. -/
theorem C10_only_orderInitialized_has_options_fields :
    ∀ c : NautilusClass,
      (c = NautilusClass.OrderInitialized ∧
        (NAUTILUS_PARQUET_SCHEMA c).metadata.optionsFields ≠ none) ∨
      (c ≠ NautilusClass.OrderInitialized ∧
        (NAUTILUS_PARQUET_SCHEMA c).metadata.optionsFields = none) := by decide

theorem charDigit_digitChar (d : Nat) (h : d < 10) :
    charDigit (digitChar d) = d := by
  interval_cases d <;> decide

theorem isDigitCh_digitChar (d : Nat) (h : d < 10) :
    isDigitCh (digitChar d) = true := by
  interval_cases d <;> decide

theorem notDot_digitChar (d : Nat) (h : d < 10) :
    notDot (digitChar d) = true := by
  interval_cases d <;> decide

theorem mem_digitChar_list {l : List Nat} (hl : ∀ d ∈ l, d < 10) :
    ∀ c ∈ (l.map digitChar).reverse, isDigitCh c = true ∧ notDot c = true := by
  intro c hc
  rw [List.mem_reverse, List.mem_map] at hc
  obtain ⟨d, hd, rfl⟩ := hc
  exact ⟨isDigitCh_digitChar d (hl d hd), notDot_digitChar d (hl d hd)⟩

theorem natChars_all (n : Nat) :
    ∀ c ∈ natChars n, isDigitCh c = true ∧ notDot c = true := by
  unfold natChars
  by_cases h : n = 0
  · rw [if_pos h]; intro c hc
    rw [List.mem_singleton] at hc; subst hc; exact ⟨by decide, by decide⟩
  · rw [if_neg h]
    exact mem_digitChar_list fun d hd => Nat.digits_lt_base (by norm_num) hd

theorem natChars_ne_nil (n : Nat) : natChars n ≠ [] := by
  unfold natChars
  by_cases h : n = 0
  · rw [if_pos h]; simp
  · rw [if_neg h]
    simp only [ne_eq, List.reverse_eq_nil_iff, List.map_eq_nil_iff]
    exact Nat.digits_ne_nil_iff_ne_zero.mpr h

theorem parseNatChars_digitChar_list {l : List Nat} (hl : ∀ d ∈ l, d < 10) :
    parseNatChars ((l.map digitChar).reverse) = Nat.ofDigits 10 l := by
  unfold parseNatChars
  rw [List.map_reverse, List.reverse_reverse, List.map_map]
  congr 1
  calc l.map (charDigit ∘ digitChar)
      = l.map id := List.map_congr_left fun d hd => charDigit_digitChar d (hl d hd)
    _ = l := List.map_id l

theorem parseNatChars_natChars (n : Nat) : parseNatChars (natChars n) = n := by
  unfold natChars
  by_cases h : n = 0
  · rw [if_pos h, h]; decide
  · rw [if_neg h,
      parseNatChars_digitChar_list fun d hd => Nat.digits_lt_base (by norm_num) hd,
      Nat.ofDigits_digits]

theorem ofDigits_replicate_zero (k : Nat) :
    Nat.ofDigits 10 (List.replicate k 0) = 0 := by
  induction k with
  | zero => simp [Nat.ofDigits]
  | succ k ih => rw [List.replicate_succ, Nat.ofDigits_cons, ih]

theorem digits_length_le (fp k : Nat) (h : fp < 10 ^ k) :
    (Nat.digits 10 fp).length ≤ k := by
  by_cases h0 : fp = 0
  · subst h0; simp
  · by_contra hlt
    push_neg at hlt
    have h1 : 10 ^ (Nat.digits 10 fp).length ≤ 10 * fp :=
      Nat.base_pow_length_digits_le 10 fp (by norm_num) h0
    have h2 : 10 ^ (k + 1) ≤ 10 ^ (Nat.digits 10 fp).length :=
      Nat.pow_le_pow_right (by norm_num) hlt
    have h3 : 10 ^ (k + 1) = 10 ^ k * 10 := pow_succ 10 k
    omega

theorem padZeros_all_lt (fp k : Nat) :
    ∀ d ∈ padZeros (Nat.digits 10 fp) k, d < 10 := by
  intro d hd
  rcases List.mem_append.mp hd with h | h
  · exact Nat.digits_lt_base (by norm_num) h
  · rw [List.eq_of_mem_replicate h]; norm_num

theorem fracChars_length (fp k : Nat) (h : fp < 10 ^ k) :
    (fracChars fp k).length = k := by
  have := digits_length_le fp k h
  simp only [fracChars, padZeros, List.length_reverse, List.length_map,
    List.length_append, List.length_replicate]
  omega

theorem fracChars_all (fp k : Nat) :
    ∀ c ∈ fracChars fp k, isDigitCh c = true ∧ notDot c = true :=
  mem_digitChar_list (padZeros_all_lt fp k)

theorem parseNatChars_fracChars (fp k : Nat) :
    parseNatChars (fracChars fp k) = fp := by
  unfold fracChars
  rw [parseNatChars_digitChar_list (padZeros_all_lt fp k)]
  unfold padZeros
  rw [Nat.ofDigits_append, Nat.ofDigits_digits, ofDigits_replicate_zero]
  simp

theorem takeWhile_all_eq {p : Char → Bool} :
    ∀ l : List Char, (∀ a ∈ l, p a = true) →
      l.takeWhile p = l ∧ l.dropWhile p = [] := by
  intro l h
  induction l with
  | nil => exact ⟨rfl, rfl⟩
  | cons x xs ih =>
      have hx : p x = true := h x (List.mem_cons_self x xs)
      have hxs := ih fun a ha => h a (List.mem_cons_of_mem x ha)
      simp [List.takeWhile_cons, List.dropWhile_cons, hx, hxs.1, hxs.2]

theorem takeWhile_append_stop {p : Char → Bool} :
    ∀ (l1 : List Char) (x : Char) (l2 : List Char),
      (∀ a ∈ l1, p a = true) → p x = false →
      (l1 ++ x :: l2).takeWhile p = l1 ∧ (l1 ++ x :: l2).dropWhile p = x :: l2 := by
  intro l1
  induction l1 with
  | nil =>
      intro x l2 _ hx
      simp [List.takeWhile_cons, List.dropWhile_cons, hx]
  | cons y ys ih =>
      intro x l2 h hx
      have hy : p y = true := h y (List.mem_cons_self y ys)
      have := ih x l2 (fun a ha => h a (List.mem_cons_of_mem y ha)) hx
      simp [List.takeWhile_cons, List.dropWhile_cons, hy, this.1, this.2]

/-- Exact decimal round trip: parsing the rendered decimal string
recovers the decimal value, for every unscaled value and scale. -/
theorem parseDecimalChars_decimalChars (d : Decimal) :
    parseDecimalChars (decimalChars d) = some d := by
  obtain ⟨u, s⟩ := d
  by_cases hs : s = 0
  · subst hs
    have hcs : decimalChars ⟨u, 0⟩ = natChars u := by simp [decimalChars]
    have hall := natChars_all u
    have htake := takeWhile_all_eq (natChars u) fun a ha => (hall a ha).2
    have hc1 : ¬ ((natChars u).takeWhile notDot = [] ∨
        ¬ ((natChars u).takeWhile notDot).all isDigitCh = true) := by
      rw [htake.1]
      push_neg
      exact ⟨natChars_ne_nil u, List.all_eq_true.mpr fun a ha => (hall a ha).1⟩
    rw [hcs]
    unfold parseDecimalChars
    rw [if_neg hc1, if_pos htake.2, htake.1, parseNatChars_natChars]
  · have hfp : u % 10 ^ s < 10 ^ s := Nat.mod_lt _ (pow_pos (by norm_num) s)
    have hcs : decimalChars ⟨u, s⟩ =
        natChars (u / 10 ^ s) ++ '.' :: fracChars (u % 10 ^ s) s := by
      simp [decimalChars, hs]
    have hip := natChars_all (u / 10 ^ s)
    have hfc := fracChars_all (u % 10 ^ s) s
    have hsplit :=
      takeWhile_append_stop (natChars (u / 10 ^ s)) '.'
        (fracChars (u % 10 ^ s) s)
        (fun a ha => (hip a ha).2) (by decide)
    rw [hcs]
    unfold parseDecimalChars
    simp only [hsplit.1, hsplit.2, List.tail_cons]
    rw [if_neg ?hc1, if_neg (List.cons_ne_nil _ _), if_neg ?hc2]
    case hc1 =>
      push_neg
      exact ⟨natChars_ne_nil _, List.all_eq_true.mpr fun a ha => (hip a ha).1⟩
    case hc2 =>
      push_neg
      constructor
      · intro hnil
        have hlen := fracChars_length (u % 10 ^ s) s hfp
        rw [hnil] at hlen
        simp only [List.length_nil] at hlen
        omega
      · exact List.all_eq_true.mpr fun a ha => (hfc a ha).1
    rw [parseNatChars_natChars, parseNatChars_fracChars,
      fracChars_length (u % 10 ^ s) s hfp, Nat.div_add_mod' u (10 ^ s)]

theorem lookup_filter_ne {t tag : String} (h : t ≠ tag) (reg : Registry) :
    List.lookup t (reg.filter fun p => p.1 != tag) = List.lookup t reg := by
  induction reg with
  | nil => rfl
  | cons p ps ih =>
      by_cases hp : p.1 = tag
      · have hf : (p.1 != tag) = false := by simp [hp]
        have ht : (t == p.1) = false := by simp [hp, h]
        simp [List.filter_cons, hf, List.lookup, ht, ih]
      · have hf : (p.1 != tag) = true := by simp [hp]
        by_cases hq : t = p.1
        · simp [List.filter_cons, hf, List.lookup, hq]
        · have ht : (t == p.1) = false := by simp [hq]
          simp [List.filter_cons, hf, List.lookup, ht, ih]

theorem lookup_registerSchema (reg : Registry) (tag t : String) (s : SchemaSpec) :
    lookupSchema (registerSchema reg tag s) t =
      if t = tag then some s else lookupSchema reg t := by
  unfold registerSchema lookupSchema
  by_cases h : t = tag
  · simp [List.lookup, h]
  · have ht : (t == tag) = false := by simp [h]
    simp [List.lookup, ht, h, lookup_filter_ne h reg]

/-- Claim C6: re-registering under the same tag leaves exactly the new
schema for that tag (never the old one, never a merge), registration
preserves the at-most-one-spec-per-tag invariant, and registrations
under distinct tags commute as observed by every lookup. -/
theorem C6_registry_last_write_wins (reg : Registry) (t1 t2 t : String)
    (A B : SchemaSpec) (hk : atMostOnePerTag reg) (hne : t1 ≠ t2) :
    lookupSchema (registerSchema (registerSchema reg t1 A) t1 B) t1 = some B ∧
    atMostOnePerTag (registerSchema reg t1 A) ∧
    lookupSchema (registerSchema (registerSchema reg t1 A) t2 B) t =
      lookupSchema (registerSchema (registerSchema reg t2 B) t1 A) t := by
  refine ⟨?_, ?_, ?_⟩
  · rw [lookup_registerSchema]
    simp
  · unfold atMostOnePerTag registerSchema
    unfold atMostOnePerTag at hk
    simp only [List.map_cons]
    refine List.nodup_cons.mpr ⟨?_, ?_⟩
    · intro hmem
      rw [List.mem_map] at hmem
      obtain ⟨p, hp, hp1⟩ := hmem
      have hmemf := List.of_mem_filter hp
      simp only [bne_iff_ne, ne_eq] at hmemf
      exact hmemf hp1
    · have hsub : ((reg.filter fun p => p.1 != t1).map Prod.fst).Sublist
          (reg.map Prod.fst) := (List.filter_sublist reg).map Prod.fst
      exact List.Nodup.sublist hsub hk
  · simp only [lookup_registerSchema]
    by_cases h2 : t = t2 <;> by_cases h1 : t = t1
    · exact absurd (h1 ▸ h2) hne
    · simp [h1, h2, Ne.symm hne]
    · simp [h1, h2, hne]
    · simp [h1, h2]

/-- Claim C6, witness: override, invariant preservation and
commutativity at the tags "Equity" and "TradeTick" on the empty
registry. -/
theorem C6_registry_last_write_wins_witness :
    atMostOnePerTag ([] : Registry) ∧ ("Equity" : String) ≠ "TradeTick" ∧
    (lookupSchema
        (registerSchema (registerSchema [] "Equity" tradeExecutedSpec)
          "Equity" orderInitializedSpec) "Equity" = some orderInitializedSpec ∧
      atMostOnePerTag (registerSchema [] "Equity" tradeExecutedSpec) ∧
      lookupSchema
          (registerSchema (registerSchema [] "Equity" tradeExecutedSpec)
            "TradeTick" orderInitializedSpec) "Equity" =
        lookupSchema
          (registerSchema (registerSchema [] "TradeTick" orderInitializedSpec)
            "Equity" tradeExecutedSpec) "Equity") :=
  ⟨List.nodup_nil, by decide,
    C6_registry_last_write_wins [] "Equity" "TradeTick" "Equity"
      tradeExecutedSpec orderInitializedSpec List.nodup_nil (by decide)⟩

/-- Claim C8: looking up an unregistered tag fails with
`SchemaNotRegistered`, no fallback schema is synthesized, and encoding a
record of that kind fails the same way; lookup and encode are pure
functions of the registry value, so the registry is unchanged. -/
theorem C8_missing_schema (reg : Registry) (tag : String) (r : DomainRecord)
    (h : lookupSchema reg tag = none) (hr : r.typeTag = tag) :
    lookupSchemaE reg tag = .error .SchemaNotRegistered ∧
    encodeTop reg r = .error .SchemaNotRegistered := by
  constructor
  · unfold lookupSchemaE
    rw [h]
  · unfold encodeTop
    rw [hr, h]

/-- Claim C8, witness: the empty registry and the trade-executed record. -/
theorem C8_missing_schema_witness :
    lookupSchema ([] : Registry) "TradeExecuted" = none ∧
    tradeExecutedRecord.typeTag = "TradeExecuted" ∧
    (lookupSchemaE [] "TradeExecuted" = .error .SchemaNotRegistered ∧
      encodeTop [] tradeExecutedRecord = .error .SchemaNotRegistered) :=
  ⟨rfl, rfl, C8_missing_schema [] "TradeExecuted" tradeExecutedRecord rfl rfl⟩

theorem mapE_congr {α β : Type} {f g : α → Except CodecError β} :
    ∀ l : List α, (∀ x ∈ l, f x = g x) → mapE f l = mapE g l := by
  intro l h
  induction l with
  | nil => rfl
  | cons x xs ih =>
      simp only [mapE, h x (List.mem_cons_self x xs),
        ih fun y hy => h y (List.mem_cons_of_mem x hy)]

theorem cell_round_trip (k : FieldKind) (v : DomainValue)
    (h : wellTyped k v = true) :
    ∃ c, encodeCell k v = some c ∧ c ≠ Cell.nullCell ∧ decodeCell k c = some v := by
  cases k <;> cases v <;>
    simp_all [wellTyped, encodeCell, decodeCell, parseDecimalChars_decimalChars]

theorem entry_round_trip (variant : List String) (fd : FieldDescriptor)
    (ov : Option DomainValue) (h : entryOk variant fd ov = true) :
    ∃ c, encodeEntry variant fd ov = .ok c ∧
      decodeField fd c = .ok (fd.name, ov) := by
  cases ov with
  | none =>
      simp only [entryOk] at h
      refine ⟨.nullCell, ?_, ?_⟩
      · unfold encodeEntry
        rw [if_pos h]
      · unfold decodeField
        rw [Bool.and_eq_true] at h
        simp [h.1]
  | some v =>
      simp only [entryOk] at h
      obtain ⟨c, hc1, hnc, hc2⟩ := cell_round_trip fd.kind v h
      refine ⟨c, ?_, ?_⟩
      · simp [encodeEntry, hc1]
      · cases c with
        | nullCell => exact absurd rfl hnc
        | stringCell cs => simp [decodeField, hc2]
        | u64Cell n => simp [decodeField, hc2]
        | bytesCell bs => simp [decodeField, hc2]
        | boolCell b => simp [decodeField, hc2]

theorem zip_names (fields : List FieldDescriptor) :
    ∀ vals : List (String × Option DomainValue),
      vals.map Prod.fst = fields.map FieldDescriptor.name →
      ∀ p ∈ fields.zip vals, p.2.1 = p.1.name := by
  induction fields with
  | nil =>
      intro vals _ p hp
      simp at hp
  | cons fd ft ih =>
      intro vals halign p hp
      cases vals with
      | nil => simp at hp
      | cons nv vt =>
          simp only [List.map_cons, List.cons.injEq] at halign
          rw [List.zip_cons_cons] at hp
          rcases List.mem_cons.mp hp with h | h
          · subst h
            exact halign.1
          · exact ih vt halign.2 p h

theorem mapE_encodeField_aligned (variant : List String) (tag : String) :
    ∀ (fields : List FieldDescriptor)
      (vals : List (String × Option DomainValue)),
      vals.map Prod.fst = fields.map FieldDescriptor.name →
      (fields.map FieldDescriptor.name).Nodup →
      mapE (encodeField ⟨tag, vals⟩ variant) fields =
        mapE (fun p => encodeEntry variant p.1 p.2.2) (fields.zip vals) := by
  intro fields
  induction fields with
  | nil =>
      intro vals _ _
      rfl
  | cons fd ft ih =>
      intro vals halign hnodup
      cases vals with
      | nil => simp at halign
      | cons pv vt =>
          obtain ⟨n, ov⟩ := pv
          simp only [List.map_cons, List.cons.injEq] at halign
          obtain ⟨hn, htail⟩ := halign
          simp only [List.map_cons] at hnodup
          have hnodup' := List.nodup_cons.mp hnodup
          have hfd : encodeField ⟨tag, (n, ov) :: vt⟩ variant fd =
              encodeEntry variant fd ov := by
            unfold encodeField
            have hb : (fd.name == n) = true := by simp [hn]
            simp [List.lookup, hb]
          have htailcong : mapE (encodeField ⟨tag, (n, ov) :: vt⟩ variant) ft =
              mapE (encodeField ⟨tag, vt⟩ variant) ft := by
            apply mapE_congr
            intro fd' hfd'
            have hmem : fd'.name ∈ ft.map FieldDescriptor.name :=
              List.mem_map_of_mem _ hfd'
            have hneq : fd'.name ≠ fd.name := fun he => hnodup'.1 (he ▸ hmem)
            have hb : (fd'.name == n) = false := by simp [hn, hneq]
            unfold encodeField
            simp [List.lookup, hb]
          rw [List.zip_cons_cons]
          simp only [mapE, hfd, htailcong, ih vt htail hnodup'.2]

theorem mapE_entry_round_trip (variant : List String) :
    ∀ pairs : List (FieldDescriptor × (String × Option DomainValue)),
      (∀ p ∈ pairs, p.2.1 = p.1.name ∧ entryOk variant p.1 p.2.2 = true) →
      ∃ row, mapE (fun p => encodeEntry variant p.1 p.2.2) pairs = .ok row ∧
        row.length = pairs.length ∧
        mapE (fun q => decodeField q.1 q.2) ((pairs.map Prod.fst).zip row) =
          .ok (pairs.map Prod.snd) := by
  intro pairs
  induction pairs with
  | nil =>
      intro _
      exact ⟨[], rfl, rfl, rfl⟩
  | cons p ps ih =>
      intro h
      obtain ⟨fd, nv⟩ := p
      obtain ⟨n, ov⟩ := nv
      obtain ⟨hname, hok⟩ := h (fd, (n, ov)) (List.mem_cons_self _ _)
      dsimp only at hname hok
      obtain ⟨row, hrow, hlen, hdec⟩ :=
        ih fun q hq => h q (List.mem_cons_of_mem _ hq)
      obtain ⟨c, hc1, hc2⟩ := entry_round_trip variant fd ov hok
      have hdec' : mapE (fun q => decodeField q.1 q.2)
          (List.zipWith Prod.mk (List.map Prod.fst ps) row) =
          .ok (List.map Prod.snd ps) := hdec
      refine ⟨c :: row, ?_, ?_, ?_⟩
      · simp only [mapE, hc1, hrow]
      · simp [hlen]
      · simp only [List.map_cons, List.zip_cons_cons, mapE, hc2, hdec']
        rw [hname]

/-- Claim C7: for a registered schema and a validly-constructed record
of its kind, encoding through the registry succeeds, the row has exactly
one entry per schema field in schema order, and decoding the row against
the schema reproduces the record field for field — including the exact
decimal string round trip. -/
theorem C7_round_trip (reg : Registry) (s : SchemaSpec) (r : DomainRecord)
    (hreg : lookupSchema reg r.typeTag = some s)
    (hvs : validSchemaSpec s = true) (hvr : validRecord s r = true) :
    encodeThenDecode reg s r = .ok r ∧
    encodedLength reg r = .ok s.fields.length := by
  obtain ⟨rtag, rvals⟩ := r
  have hnd : (s.fields.map FieldDescriptor.name).Nodup := by
    unfold validSchemaSpec at hvs
    rw [Bool.and_eq_true] at hvs
    exact of_decide_eq_true hvs.1
  unfold validRecord at hvr
  rw [Bool.and_eq_true, Bool.and_eq_true] at hvr
  obtain ⟨⟨htag, halign⟩, hall⟩ := hvr
  have htag' : rtag = s.typeTag := by simpa using htag
  have halign' : rvals.map Prod.fst = s.fields.map FieldDescriptor.name := by
    simpa using halign
  have hpairs : ∀ p ∈ s.fields.zip rvals,
      p.2.1 = p.1.name ∧ entryOk s.variantFields p.1 p.2.2 = true := by
    intro p hp
    refine ⟨zip_names s.fields rvals halign' p hp, ?_⟩
    have := List.all_eq_true.mp hall p hp
    simpa using this
  obtain ⟨row, hrow, hlen, hdec⟩ :=
    mapE_entry_round_trip s.variantFields (s.fields.zip rvals) hpairs
  have hlenv : rvals.length = s.fields.length := by
    have := congrArg List.length halign'
    simpa using this
  have hziplen : (s.fields.zip rvals).length = s.fields.length := by
    rw [List.length_zip, hlenv, Nat.min_self]
  have hrowlen : row.length = s.fields.length := by rw [hlen, hziplen]
  have hmapfst : (s.fields.zip rvals).map Prod.fst = s.fields :=
    List.map_fst_zip s.fields rvals (le_of_eq hlenv.symm)
  have hmapsnd : (s.fields.zip rvals).map Prod.snd = rvals :=
    List.map_snd_zip s.fields rvals (le_of_eq hlenv)
  have henc : encodeRecord s ⟨rtag, rvals⟩ = .ok row := by
    unfold encodeRecord
    rw [mapE_encodeField_aligned s.variantFields rtag s.fields rvals halign' hnd,
      hrow]
  have hencTop : encodeTop reg ⟨rtag, rvals⟩ = .ok row := by
    unfold encodeTop
    rw [show (DomainRecord.mk rtag rvals).typeTag = rtag from rfl] at hreg ⊢
    rw [hreg]
    exact henc
  have hdecR : decodeRecord row s = .ok ⟨rtag, rvals⟩ := by
    unfold decodeRecord
    rw [if_pos hrowlen]
    rw [hmapfst] at hdec
    rw [hdec, hmapsnd]
    rw [htag']
    rfl
  constructor
  · unfold encodeThenDecode
    rw [hencTop]
    exact hdecR
  · unfold encodedLength
    rw [hencTop]
    show Except.ok row.length = Except.ok s.fields.length
    rw [hrowlen]

/-- Claim C7, witness: the scenario-A trade-executed schema and record —
price 100.25 and size 10 survive the round trip exactly, and the row has
five entries. -/
theorem C7_round_trip_witness :
    lookupSchema (registerSchema [] "TradeExecuted" tradeExecutedSpec)
        tradeExecutedRecord.typeTag = some tradeExecutedSpec ∧
    validSchemaSpec tradeExecutedSpec = true ∧
    validRecord tradeExecutedSpec tradeExecutedRecord = true ∧
    (encodeThenDecode (registerSchema [] "TradeExecuted" tradeExecutedSpec)
        tradeExecutedSpec tradeExecutedRecord = .ok tradeExecutedRecord ∧
      encodedLength (registerSchema [] "TradeExecuted" tradeExecutedSpec)
        tradeExecutedRecord = .ok tradeExecutedSpec.fields.length) :=
  ⟨by decide, by decide, by decide,
    C7_round_trip (registerSchema [] "TradeExecuted" tradeExecutedSpec)
      tradeExecutedSpec tradeExecutedRecord (by decide) (by decide) (by decide)⟩
